import Mathlib

/-!
Shallow embedding of `src/pipelines/exercise.ipynb`.

The notebook has two cells:

Cell 1 loads `../data/penguins.csv` into a dataframe `df` and prints it.

Cell 2 recodes the `sex` and `species` columns to pandas category codes,
splits the rows into train/test partitions with
`train_test_split(X, y, test_size=0.3, random_state=42)`, fits a logistic
regression on the single feature `sex` with target `species`, predicts on
the test partition, computes `accuracy_score`, prints the accuracy, and
prints a conclusion sentence depending on whether the accuracy exceeds 0.5.

Library semantics embedded here (from the libraries the notebook calls):

  pandas `astype('category').cat.codes` assigns to each non-missing value
  the index of that value in the sorted list of distinct non-missing values
  of the column, and assigns the sentinel code -1 to missing values.

  sklearn `train_test_split` with a float `test_size` draws a permutation of
  the row indices from the seeded random number generator, takes the first
  `ceil(test_size * n)` shuffled indices as the test partition and the
  remaining indices as the train partition.  The permutation produced by the
  seeded generator is opaque numeric-library code, so definitions below are
  parametrised by the permutation `perm`; theorems that need it assume
  `perm` is a permutation of `List.range n`, which holds of the generator's
  output for every seed.

  The logistic-regression solver is floating-point library code; the
  pipeline is parametrised by an abstract fitted-model type `M` together
  with `fit` and `predict` functions, which is all the dataflow claims need.

  sklearn `accuracy_score` is the mean over test samples of the indicator
  that the predicted label equals the true label.
-/

namespace Exercise

/-- A raw row of the loaded table: the seven columns of `penguins.csv`,
each possibly missing (pandas NaN is modelled as `none`). -/
structure RawRow where
  species : Option String
  island : Option String
  culmen_length_mm : Option ℚ
  culmen_depth_mm : Option ℚ
  flipper_length_mm : Option ℚ
  body_mass_g : Option ℚ
  sex : Option String
deriving DecidableEq

/-- A row after cell 2 recodes `sex` and `species` to integer category
codes; all other columns keep their values. -/
structure EncRow where
  species : Int
  island : Option String
  culmen_length_mm : Option ℚ
  culmen_depth_mm : Option ℚ
  flipper_length_mm : Option ℚ
  body_mass_g : Option ℚ
  sex : Int
deriving DecidableEq

/-- The pandas categories of a column: the distinct non-missing values, in
sorted order. -/
def categories (col : List (Option String)) : List String :=
  (col.filterMap id).dedup.mergeSort (fun a b => decide (a ≤ b))

/-- The pandas category code of one cell value: missing values get the
sentinel -1, a present value gets its index in the category list. -/
def catCode (cats : List String) (v : Option String) : Int :=
  match v with
  | none => -1
  | some s =>
    match cats.findIdx? (fun t => decide (t = s)) with
    | some i => (i : Int)
    | none => -1

/-- Recode one row: `df['sex'] = df['sex'].astype('category').cat.codes`
and likewise for `species`; the other five columns are untouched. -/
def encodeRow (sexCats speciesCats : List String) (r : RawRow) : EncRow :=
  { species := catCode speciesCats r.species
    island := r.island
    culmen_length_mm := r.culmen_length_mm
    culmen_depth_mm := r.culmen_depth_mm
    flipper_length_mm := r.flipper_length_mm
    body_mass_g := r.body_mass_g
    sex := catCode sexCats r.sex }

/-- The recoding step of cell 2 applied to the whole dataframe. -/
def encode (df : List RawRow) : List EncRow :=
  df.map (encodeRow (categories (df.map RawRow.sex))
    (categories (df.map RawRow.species)))

/-- The notebook's fixed seed: `random_state=42`. -/
def random_state : Nat := 42

/-- The notebook's fixed split ratio: `test_size=0.3`. -/
def test_size : ℚ := 0.3

/-- sklearn test-partition size for a float `test_size`:
`n_test = ceil(test_size * n_samples)`. -/
def n_test (n : Nat) : Nat := (⌈test_size * (n : ℚ)⌉).toNat

/-- sklearn train-partition size: `n_train = n_samples - n_test`. -/
def n_train (n : Nat) : Nat := n - n_test n

/-- sklearn ShuffleSplit test indices: the first `n_test` entries of the
seeded permutation of the row indices. -/
def test_idx (perm : List Nat) (n : Nat) : List Nat := perm.take (n_test n)

/-- sklearn ShuffleSplit train indices: the remaining entries of the
seeded permutation. -/
def train_idx (perm : List Nat) (n : Nat) : List Nat := perm.drop (n_test n)

/-- The encoded rows selected by a list of indices
(sklearn `_safe_indexing`). -/
def rows_at (df : List RawRow) (idx : List Nat) : List EncRow :=
  idx.filterMap (fun i => (encode df)[i]?)

/-- The test partition of the encoded dataframe. -/
def test_rows (perm : List Nat) (df : List RawRow) : List EncRow :=
  rows_at df (test_idx perm df.length)

/-- The train partition of the encoded dataframe. -/
def train_rows (perm : List Nat) (df : List RawRow) : List EncRow :=
  rows_at df (train_idx perm df.length)

/-- `X_train`: the `sex` feature column of the train partition. -/
def X_train (perm : List Nat) (df : List RawRow) : List Int :=
  (train_rows perm df).map EncRow.sex

/-- `y_train`: the `species` target column of the train partition. -/
def y_train (perm : List Nat) (df : List RawRow) : List Int :=
  (train_rows perm df).map EncRow.species

/-- `X_test`: the `sex` feature column of the test partition. -/
def X_test (perm : List Nat) (df : List RawRow) : List Int :=
  (test_rows perm df).map EncRow.sex

/-- `y_test`: the `species` target column of the test partition. -/
def y_test (perm : List Nat) (df : List RawRow) : List Int :=
  (test_rows perm df).map EncRow.species

/-- `y_pred = model.predict(X_test)` where
`model = LogisticRegression().fit(X_train, y_train)`; the solver is
abstracted by `fit` and `predict` over a model type `M`. -/
def y_pred {M : Type} (fit : List Int → List Int → M) (predict : M → Int → Int)
    (perm : List Nat) (df : List RawRow) : List Int :=
  (X_test perm df).map (predict (fit (X_train perm df) (y_train perm df)))

/-- sklearn `accuracy_score`: the mean over samples of the indicator that
the true label equals the predicted label. -/
def accuracy_score (y_true y_hat : List Int) : ℚ :=
  (List.zipWith (fun a b => if a = b then (1 : ℚ) else 0) y_true y_hat).sum
    / (y_true.length : ℚ)

/-- `accuracy = accuracy_score(y_test, y_pred)`. -/
def accuracy {M : Type} (fit : List Int → List Int → M)
    (predict : M → Int → Int) (perm : List Nat) (df : List RawRow) : ℚ :=
  accuracy_score (y_test perm df) (y_pred fit predict perm df)

/-- The conclusion sentence printed when `accuracy > 0.5`. -/
def has_msg : String :=
  "The sex column has some predictive power for the species column."

/-- The conclusion sentence printed otherwise. -/
def no_msg : String :=
  "The sex column does not have predictive power for the species column."

/-- The conclusion branch of cell 2:
`if accuracy > 0.5: print(has_msg) else: print(no_msg)`. -/
def conclusion (a : ℚ) : String := if a > 0.5 then has_msg else no_msg

/-- One item printed to standard output. -/
inductive OutputItem where
  | table : List RawRow → OutputItem
  | accuracyLine : ℚ → OutputItem
  | conclusionLine : String → OutputItem
deriving DecidableEq

/-- Everything the notebook prints, in order: the full loaded table from
cell 1, then the accuracy line, then one conclusion sentence. -/
def program_output {M : Type} (fit : List Int → List Int → M)
    (predict : M → Int → Int) (perm : List Nat) (df : List RawRow) :
    List OutputItem :=
  [OutputItem.table df,
   OutputItem.accuracyLine (accuracy fit predict perm df),
   OutputItem.conclusionLine (conclusion (accuracy fit predict perm df))]

/-- The fixed relative path read by cell 1. -/
def penguins_path : String := "../data/penguins.csv"

/-- `df = pd.read_csv('../data/penguins.csv')`: the notebook applies the
reading routine (modelled as the ambient `fs`) to the fixed path, with no
handling of its own around it. -/
def load_df (fs : String → Except String (List RawRow)) :
    Except String (List RawRow) :=
  fs penguins_path

/-- The whole notebook run: load the dataframe, and if the read succeeds,
produce the printed output; a read error propagates unhandled. -/
def run_notebook {M : Type} (fit : List Int → List Int → M)
    (predict : M → Int → Int) (perm : List Nat)
    (fs : String → Except String (List RawRow)) :
    Except String (List OutputItem) :=
  match load_df fs with
  | Except.error e => Except.error e
  | Except.ok df => Except.ok (program_output fit predict perm df)

/-- A sample raw row with both categorical values present (values as in
the table printed by cell 1). -/
def row_a : RawRow :=
  { species := some "Adelie", island := some "Torgersen",
    culmen_length_mm := some 39.1, culmen_depth_mm := some 18.7,
    flipper_length_mm := some 181, body_mass_g := some 3750,
    sex := some "MALE" }

/-- A second sample raw row with different categorical values. -/
def row_b : RawRow :=
  { species := some "Gentoo", island := some "Biscoe",
    culmen_length_mm := some 46.8, culmen_depth_mm := some 14.3,
    flipper_length_mm := some 215, body_mass_g := some 4850,
    sex := some "FEMALE" }

/-- A sample raw row with missing sex and species, as in row 3 of the
printed table. -/
def row_c : RawRow :=
  { species := none, island := some "Torgersen", culmen_length_mm := none,
    culmen_depth_mm := none, flipper_length_mm := none, body_mass_g := none,
    sex := none }

/-- A small concrete dataframe used to instantiate the theorems. -/
def sample_df : List RawRow := [row_a, row_b, row_c]

/-- A concrete stand-in for the fitted-model state of the solver. -/
def fit0 : List Int → List Int → Unit := fun _ _ => ()

/-- A concrete stand-in for the prediction function of the solver. -/
def predict0 : Unit → Int → Int := fun _ _ => 0

/-- A concrete shuffled order of the three sample row indices. -/
def perm3 : List Nat := [2, 0, 1]

/-- A concrete reading routine that fails on every path. -/
def fs0 : String → Except String (List RawRow) :=
  fun _ => Except.error "read failure"

/-! Basic lemmas about the embedded operations. -/

/-- The category list of a column has no duplicates. -/
theorem categories_nodup (col : List (Option String)) : (categories col).Nodup :=
  (List.mergeSort_perm (col.filterMap id).dedup
    (fun a b => decide (a ≤ b))).nodup_iff.mpr (List.nodup_dedup _)

/-- A string is a category of a column exactly when it occurs in the column. -/
theorem mem_categories {col : List (Option String)} {s : String} :
    s ∈ categories col ↔ some s ∈ col := by
  rw [categories, (List.mergeSort_perm _ _).mem_iff, List.mem_dedup,
    List.mem_filterMap]
  constructor
  · rintro ⟨a, ha, hid⟩
    cases a with
    | none => cases hid
    | some t => cases hid; exact ha
  · exact fun h => ⟨some s, h, rfl⟩

/-- Missing values get the sentinel code -1. -/
theorem catCode_none (cats : List String) : catCode cats none = -1 := rfl

/-- A value occurring among the categories gets its index as its code. -/
theorem catCode_getElem {cats : List String} {s : String} (h : s ∈ cats) :
    ∃ i : Nat, catCode cats (some s) = (i : Int)
      ∧ ∃ hi : i < cats.length, cats.get ⟨i, hi⟩ = s := by
  cases hf : cats.findIdx? (fun t => decide (t = s)) with
  | none =>
    rw [List.findIdx?_eq_none_iff] at hf
    have := hf s h
    simp at this
  | some i =>
    have hg := List.findIdx?_eq_some_iff_getElem.mp hf
    obtain ⟨hi, hp, _⟩ := hg
    refine ⟨i, ?_, hi, ?_⟩
    · rw [catCode, hf]
    · simpa using hp

/-- Codes of values occurring among the categories are nonnegative. -/
theorem catCode_nonneg {cats : List String} {s : String} (h : s ∈ cats) :
    0 ≤ catCode cats (some s) := by
  obtain ⟨i, hc, _⟩ := catCode_getElem h
  rw [hc]
  exact Int.ofNat_nonneg i

/-- Distinct values occurring among the categories get distinct codes. -/
theorem catCode_inj {cats : List String} {s t : String}
    (hs : s ∈ cats) (ht : t ∈ cats)
    (h : catCode cats (some s) = catCode cats (some t)) : s = t := by
  obtain ⟨i, hci, hi, hgi⟩ := catCode_getElem hs
  obtain ⟨j, hcj, hj, hgj⟩ := catCode_getElem ht
  rw [hci, hcj] at h
  have hij : i = j := by exact_mod_cast h
  subst hij
  rw [← hgi, ← hgj]

/-- Rowwise description of the recoding step. -/
theorem encode_getElem? (df : List RawRow) (i : Nat) :
    (encode df)[i]? = (df[i]?).map
      (encodeRow (categories (df.map RawRow.sex))
        (categories (df.map RawRow.species))) := by
  simp [encode]

/-- The recoding step keeps the number of rows. -/
theorem encode_length (df : List RawRow) : (encode df).length = df.length := by
  simp [encode]

/-- Indexing every position of a list in order returns the list. -/
theorem filterMap_getElem?_range (l : List α) :
    (List.range l.length).filterMap (fun i => l[i]?) = l := by
  induction l with
  | nil => simp
  | cons a l ih =>
    have h2 : ((List.range l.length).map Nat.succ).filterMap
        (fun i => (a :: l)[i]?) = (List.range l.length).filterMap
        (fun i => l[i]?) := by
      rw [List.filterMap_map]
      congr 1
      funext i
      simp
    simp only [List.length_cons, List.range_succ_eq_map, List.filterMap_cons,
      List.getElem?_cons_zero, h2, ih]

/-- Indexing by a permutation of all row indices permutes the rows. -/
theorem rows_at_perm {df : List RawRow} {perm : List Nat}
    (h : perm.Perm (List.range df.length)) :
    (rows_at df perm).Perm (encode df) := by
  rw [show df.length = (encode df).length from (encode_length df).symm] at h
  have hp := h.filterMap (fun i => (encode df)[i]?)
  rwa [filterMap_getElem?_range] at hp

/-- Every row selected by any index list is a row of the encoded table. -/
theorem rows_at_subset {df : List RawRow} {idx : List Nat} {r : EncRow}
    (h : r ∈ rows_at df idx) : r ∈ encode df := by
  rw [rows_at, List.mem_filterMap] at h
  obtain ⟨i, _, hi⟩ := h
  exact List.getElem?_mem hi

/-- The test partition followed by the train partition is the shuffled table. -/
theorem test_append_train (perm : List Nat) (df : List RawRow) :
    test_rows perm df ++ train_rows perm df = rows_at df perm := by
  simp only [test_rows, train_rows, rows_at, test_idx, train_idx]
  rw [← List.filterMap_append, List.take_append_drop]

/-- The test partition never holds more than all rows. -/
theorem n_test_le (n : Nat) : n_test n ≤ n := by
  rw [n_test, Int.toNat_le]
  rw [Int.ceil_le]
  push_cast
  have h1 : test_size ≤ 1 := by norm_num [test_size]
  calc test_size * (n : ℚ) ≤ 1 * (n : ℚ) :=
        mul_le_mul_of_nonneg_right h1 (Nat.cast_nonneg n)
    _ = (n : ℚ) := one_mul _

/-- Test and train indices are disjoint when the shuffle is a permutation. -/
theorem idx_disjoint {perm : List Nat} {n : Nat}
    (h : perm.Perm (List.range n)) :
    ∀ i, i ∈ test_idx perm n → i ∉ train_idx perm n := by
  have hnd : perm.Nodup := h.nodup_iff.mpr (List.nodup_range n)
  exact fun i hi hj => (List.disjoint_take_drop hnd le_rfl) hi hj

/-- The sklearn test size at the notebook's row count. -/
theorem n_test_344 : n_test 344 = 104 := by
  have h : (⌈test_size * ((344 : Nat) : ℚ)⌉ : ℤ) = 104 := by
    rw [show test_size * (((344 : Nat) : ℚ)) = 516 / 5 by norm_num [test_size]]
    rw [Int.ceil_eq_iff]
    constructor <;> norm_num
  rw [n_test, h]
  rfl

/-- The indicator sum of matches equals the match count. -/
theorem sum_zipWith_eq_countP (l1 l2 : List Int) :
    (List.zipWith (fun a b => if a = b then (1 : ℚ) else 0) l1 l2).sum
      = (((List.zip l1 l2).countP (fun p => decide (p.1 = p.2)) : Nat) : ℚ) := by
  induction l1 generalizing l2 with
  | nil => simp
  | cons a l ih =>
    cases l2 with
    | nil => simp
    | cons b l2 =>
      rw [List.zipWith_cons_cons, List.zip_cons_cons, List.sum_cons,
        List.countP_cons, ih l2]
      by_cases h : a = b
      · push_cast [h]
        simp
        ring
      · push_cast [h]
        simp

/-- A categorical value of any row is a category of its column. -/
theorem col_mem {df : List RawRow} {i : Nat} {ri : RawRow} {s : String}
    (f : RawRow → Option String) (hi : df[i]? = some ri)
    (hs : f ri = some s) : s ∈ categories (df.map f) := by
  rw [mem_categories]
  have hmap : (df.map f)[i]? = some (some s) := by
    rw [List.getElem?_map, hi, Option.map_some', hs]
  exact List.getElem?_mem hmap

/-! The claims. -/

/-- Claim C1: after computing the test-set accuracy, the notebook prints
the "has predictive power" sentence iff the accuracy is strictly greater
than 0.5, otherwise it prints the "does not have predictive power"
sentence, and for every accuracy value exactly one of the two conclusion
sentences is printed. -/
theorem C1_threshold_iff (a : ℚ) :
    (conclusion a = has_msg ↔ a > 0.5)
    ∧ (conclusion a = no_msg ↔ ¬a > 0.5)
    ∧ ((conclusion a = has_msg ∧ conclusion a ≠ no_msg)
      ∨ (conclusion a = no_msg ∧ conclusion a ≠ has_msg)) := by
  have hne : has_msg ≠ no_msg := by decide
  by_cases h : a > 0.5
  · rw [conclusion, if_pos h]
    exact ⟨iff_of_true rfl h, iff_of_false hne (not_not_intro h),
      Or.inl ⟨rfl, hne⟩⟩
  · rw [conclusion, if_neg h]
    exact ⟨iff_of_false (Ne.symm hne) h, iff_of_true rfl h,
      Or.inr ⟨rfl, Ne.symm hne⟩⟩

/-- Claim C2 as stated is false on the code: at the 344-row table of the
recorded run the split takes ceil(0.3*344) = 104 test rows and the
remaining 240 train rows, and no partition of 344 rows can contain
exactly 70% of them, because 70% of 344 is not a natural number. -/
theorem C2_seventy_percent_fails :
    n_train 344 = 240 ∧ n_test 344 = 104
    ∧ ¬∃ k : Nat, (k : ℚ) = (70 / 100) * 344 := by
  refine ⟨by rw [n_train, n_test_344], n_test_344, ?_⟩
  rintro ⟨k, hk⟩
  have h5 : ((5 * k : Nat) : ℚ) = ((1204 : Nat) : ℚ) := by
    push_cast
    rw [hk]
    norm_num
  have h5n : 5 * k = 1204 := by exact_mod_cast h5
  omega

/-- Claim C2 (amended): for a table of n rows, the split takes the first
ceil(0.3*n) shuffled indices as the test partition and the remaining
n - ceil(0.3*n) as the train partition; the two partitions are disjoint
and together are a permutation of all row indices, so they cover all rows;
with the seed fixed, the partition is a function of the shuffled order. -/
theorem C2_split_partition {perm : List Nat} {n : Nat}
    (h : perm.Perm (List.range n)) :
    (test_idx perm n).length = n_test n
    ∧ (train_idx perm n).length = n - n_test n
    ∧ (∀ i, i ∈ test_idx perm n → i ∉ train_idx perm n)
    ∧ (test_idx perm n ++ train_idx perm n).Perm (List.range n) := by
  have hlen : perm.length = n := by
    rw [h.length_eq, List.length_range]
  refine ⟨?_, ?_, idx_disjoint h, ?_⟩
  · rw [test_idx, List.length_take, hlen]
    exact min_eq_left (n_test_le n)
  · rw [train_idx, List.length_drop, hlen]
  · rw [test_idx, train_idx, List.take_append_drop]
    exact h

/-- Claim C2 (amended) at a concrete permutation of four row indices. -/
theorem C2_split_partition_witness :
    ([2, 0, 3, 1] : List Nat).Perm (List.range 4)
    ∧ ((test_idx [2, 0, 3, 1] 4).length = n_test 4
      ∧ (train_idx [2, 0, 3, 1] 4).length = 4 - n_test 4
      ∧ (∀ i, i ∈ test_idx [2, 0, 3, 1] 4 → i ∉ train_idx [2, 0, 3, 1] 4)
      ∧ (test_idx [2, 0, 3, 1] 4 ++ train_idx [2, 0, 3, 1] 4).Perm
          (List.range 4)) :=
  ⟨by decide, C2_split_partition (by decide)⟩

/-- Claim C3: before fitting, the sex and species columns are replaced by
integer category codes: rows holding the same categorical value get the
same code, rows holding distinct values get distinct codes, and missing
values get the single sentinel code. -/
theorem C3_category_codes {df : List RawRow} {i j : Nat} {ri rj : RawRow}
    (hi : df[i]? = some ri) (hj : df[j]? = some rj) :
    (ri.sex = rj.sex →
      ((encode df)[i]?).map EncRow.sex = ((encode df)[j]?).map EncRow.sex)
    ∧ (ri.species = rj.species →
      ((encode df)[i]?).map EncRow.species
        = ((encode df)[j]?).map EncRow.species)
    ∧ (∀ s t, ri.sex = some s → rj.sex = some t → s ≠ t →
      ((encode df)[i]?).map EncRow.sex ≠ ((encode df)[j]?).map EncRow.sex)
    ∧ (∀ s t, ri.species = some s → rj.species = some t → s ≠ t →
      ((encode df)[i]?).map EncRow.species
        ≠ ((encode df)[j]?).map EncRow.species)
    ∧ (ri.sex = none → ((encode df)[i]?).map EncRow.sex = some (-1))
    ∧ (ri.species = none →
      ((encode df)[i]?).map EncRow.species = some (-1)) := by
  rw [encode_getElem? df i, encode_getElem? df j, hi, hj]
  simp only [Option.map_some', encodeRow]
  refine ⟨?_, ?_, ?_, ?_, ?_, ?_⟩
  · intro hsex
    rw [hsex]
  · intro hsp
    rw [hsp]
  · intro s t hs ht hne heq
    rw [hs, ht] at heq
    exact hne (catCode_inj (col_mem RawRow.sex hi hs)
      (col_mem RawRow.sex hj ht) (Option.some_injective _ heq))
  · intro s t hs ht hne heq
    rw [hs, ht] at heq
    exact hne (catCode_inj (col_mem RawRow.species hi hs)
      (col_mem RawRow.species hj ht) (Option.some_injective _ heq))
  · intro hs
    rw [hs, catCode_none]
  · intro hs
    rw [hs, catCode_none]

/-- Claim C3 at two concrete rows of the sample dataframe. -/
theorem C3_category_codes_witness :
    sample_df[0]? = some row_a ∧ sample_df[1]? = some row_b
    ∧ ((row_a.sex = row_b.sex →
        ((encode sample_df)[0]?).map EncRow.sex
          = ((encode sample_df)[1]?).map EncRow.sex)
      ∧ (row_a.species = row_b.species →
        ((encode sample_df)[0]?).map EncRow.species
          = ((encode sample_df)[1]?).map EncRow.species)
      ∧ (∀ s t, row_a.sex = some s → row_b.sex = some t → s ≠ t →
        ((encode sample_df)[0]?).map EncRow.sex
          ≠ ((encode sample_df)[1]?).map EncRow.sex)
      ∧ (∀ s t, row_a.species = some s → row_b.species = some t → s ≠ t →
        ((encode sample_df)[0]?).map EncRow.species
          ≠ ((encode sample_df)[1]?).map EncRow.species)
      ∧ (row_a.sex = none →
        ((encode sample_df)[0]?).map EncRow.sex = some (-1))
      ∧ (row_a.species = none →
        ((encode sample_df)[0]?).map EncRow.species = some (-1))) :=
  ⟨rfl, rfl, C3_category_codes rfl rfl⟩

/-- Claim C4: the classifier is fitted with the sex codes of the train
partition as its only input feature and the species codes of the train
partition as its target, predictions are computed exactly on the test
partition, and no test index is a train index; the logistic-regression
solver itself is abstracted by the fit and predict parameters. -/
theorem C4_fit_predict_dataflow {M : Type} (fit : List Int → List Int → M)
    (predict : M → Int → Int) (perm : List Nat) (df : List RawRow)
    (h : perm.Perm (List.range df.length)) :
    y_pred fit predict perm df
      = (test_rows perm df).map (fun r =>
        predict (fit ((train_rows perm df).map EncRow.sex)
          ((train_rows perm df).map EncRow.species)) r.sex)
    ∧ accuracy fit predict perm df
      = accuracy_score ((test_rows perm df).map EncRow.species)
        (y_pred fit predict perm df)
    ∧ ∀ i, i ∈ test_idx perm df.length → i ∉ train_idx perm df.length := by
  refine ⟨?_, rfl, idx_disjoint h⟩
  rw [y_pred, X_test, X_train, y_train, List.map_map]
  rfl

/-- Claim C4 at concrete data, solver stand-ins and shuffled order. -/
theorem C4_fit_predict_dataflow_witness :
    perm3.Perm (List.range sample_df.length)
    ∧ (y_pred fit0 predict0 perm3 sample_df
        = (test_rows perm3 sample_df).map (fun r =>
          predict0 (fit0 ((train_rows perm3 sample_df).map EncRow.sex)
            ((train_rows perm3 sample_df).map EncRow.species)) r.sex)
      ∧ accuracy fit0 predict0 perm3 sample_df
        = accuracy_score ((test_rows perm3 sample_df).map EncRow.species)
          (y_pred fit0 predict0 perm3 sample_df)
      ∧ ∀ i, i ∈ test_idx perm3 sample_df.length →
          i ∉ train_idx perm3 sample_df.length) :=
  ⟨by decide, C4_fit_predict_dataflow fit0 predict0 perm3 sample_df
    (by decide)⟩

/-- Claim C5: the reported accuracy equals the number of test rows whose
predicted species code equals the true species code, divided by the total
number of test rows. -/
theorem C5_accuracy_is_match_fraction {M : Type}
    (fit : List Int → List Int → M) (predict : M → Int → Int)
    (perm : List Nat) (df : List RawRow) :
    accuracy fit predict perm df
      = (((List.zip (y_test perm df) (y_pred fit predict perm df)).countP
          (fun p => decide (p.1 = p.2)) : Nat) : ℚ)
        / ((y_test perm df).length : ℚ)
    ∧ (y_test perm df).length = (test_rows perm df).length
    ∧ (y_pred fit predict perm df).length = (test_rows perm df).length := by
  refine ⟨?_, by rw [y_test, List.length_map],
    by rw [y_pred, X_test, List.length_map, List.length_map]⟩
  rw [accuracy, accuracy_score, sum_zipWith_eq_countP]

/-- Claim C6: with the seed fixed to 42 and the split ratio fixed to 0.3,
the whole computation from loaded table to accuracy is a deterministic
function of the input: two runs on equal loaded tables produce equal
accuracies and equal printed outputs. -/
theorem C6_deterministic {M : Type} (fit : List Int → List Int → M)
    (predict : M → Int → Int) (perm : List Nat) (df1 df2 : List RawRow)
    (h : df1 = df2) :
    accuracy fit predict perm df1 = accuracy fit predict perm df2
    ∧ program_output fit predict perm df1
      = program_output fit predict perm df2 := by
  rw [h]
  exact ⟨rfl, rfl⟩

/-- Claim C6 at two runs on the concrete sample dataframe. -/
theorem C6_deterministic_witness :
    sample_df = sample_df
    ∧ (accuracy fit0 predict0 perm3 sample_df
        = accuracy fit0 predict0 perm3 sample_df
      ∧ program_output fit0 predict0 perm3 sample_df
        = program_output fit0 predict0 perm3 sample_df) :=
  ⟨rfl, C6_deterministic fit0 predict0 perm3 sample_df sample_df rfl⟩

/-- Claim C7: the printed output consists, in order, of the full loaded
table, then the computed accuracy value, then exactly one conclusion
sentence, and nothing is printed before the table. -/
theorem C7_output_shape {M : Type} (fit : List Int → List Int → M)
    (predict : M → Int → Int) (perm : List Nat) (df : List RawRow) :
    program_output fit predict perm df
      = [OutputItem.table df,
        OutputItem.accuracyLine (accuracy fit predict perm df),
        OutputItem.conclusionLine (conclusion (accuracy fit predict perm df))]
    ∧ (program_output fit predict perm df).head? = some (OutputItem.table df)
    ∧ (program_output fit predict perm df).countP
        (fun o => match o with
          | OutputItem.conclusionLine _ => true
          | _ => false) = 1 :=
  ⟨rfl, rfl, rfl⟩

/-- Claim C8: the loader reads the file at the fixed relative path and
performs no validation or error recovery of its own: whenever the reading
routine fails, the same error propagates unhandled out of the whole run
and no alternative output is produced. -/
theorem C8_read_errors_propagate {M : Type} (fit : List Int → List Int → M)
    (predict : M → Int → Int) (perm : List Nat)
    (fs : String → Except String (List RawRow)) (e : String)
    (h : fs penguins_path = Except.error e) :
    load_df fs = fs penguins_path
    ∧ run_notebook fit predict perm fs = Except.error e := by
  refine ⟨rfl, ?_⟩
  rw [run_notebook, load_df, h]

/-- Claim C8 at a concrete reading routine that fails. -/
theorem C8_read_errors_propagate_witness :
    fs0 penguins_path = Except.error "read failure"
    ∧ (load_df fs0 = fs0 penguins_path
      ∧ run_notebook fit0 predict0 perm3 fs0
        = Except.error "read failure") :=
  ⟨rfl, C8_read_errors_propagate fit0 predict0 perm3 fs0 "read failure" rfl⟩

/-- Claim C9: the sentinel code for a missing sex or species value is
exactly -1 and rows holding missing values are not dropped: the encoded
table has one row per loaded row, the union of the two partitions is a
permutation of the encoded table, and a row with missing sex contributes
the feature value -1. -/
theorem C9_sentinel_no_drop {df : List RawRow} {perm : List Nat}
    (h : perm.Perm (List.range df.length)) :
    (encode df).length = df.length
    ∧ (test_rows perm df ++ train_rows perm df).Perm (encode df)
    ∧ (∀ (i : Nat) (ri : RawRow), df[i]? = some ri → ri.sex = none →
      ((encode df)[i]?).map EncRow.sex = some (-1))
    ∧ (∀ (i : Nat) (ri : RawRow), df[i]? = some ri → ri.species = none →
      ((encode df)[i]?).map EncRow.species = some (-1)) := by
  refine ⟨encode_length df, ?_, ?_, ?_⟩
  · rw [test_append_train]
    exact rows_at_perm h
  · intro i ri hi hs
    rw [encode_getElem? df i, hi]
    simp only [Option.map_some', encodeRow]
    rw [hs, catCode_none]
  · intro i ri hi hs
    rw [encode_getElem? df i, hi]
    simp only [Option.map_some', encodeRow]
    rw [hs, catCode_none]

/-- Claim C9 at the concrete sample dataframe with a missing-sex row. -/
theorem C9_sentinel_no_drop_witness :
    perm3.Perm (List.range sample_df.length)
    ∧ ((encode sample_df).length = sample_df.length
      ∧ (test_rows perm3 sample_df ++ train_rows perm3 sample_df).Perm
          (encode sample_df)
      ∧ (∀ (i : Nat) (ri : RawRow), sample_df[i]? = some ri → ri.sex = none →
        ((encode sample_df)[i]?).map EncRow.sex = some (-1))
      ∧ (∀ (i : Nat) (ri : RawRow), sample_df[i]? = some ri →
        ri.species = none →
        ((encode sample_df)[i]?).map EncRow.species = some (-1))) :=
  ⟨by decide, C9_sentinel_no_drop (by decide)⟩

/-- Claim C10: the recoding step overwrites only the sex and species
columns: for every row, the island and the four numeric columns are
unchanged by the encoding, and the splitting, fitting and evaluation
steps only select rows of the encoded table, never altering them. -/
theorem C10_frame (df : List RawRow) (perm : List Nat) (i : Nat) :
    ((encode df)[i]?).map EncRow.island = (df[i]?).map RawRow.island
    ∧ ((encode df)[i]?).map EncRow.culmen_length_mm
      = (df[i]?).map RawRow.culmen_length_mm
    ∧ ((encode df)[i]?).map EncRow.culmen_depth_mm
      = (df[i]?).map RawRow.culmen_depth_mm
    ∧ ((encode df)[i]?).map EncRow.flipper_length_mm
      = (df[i]?).map RawRow.flipper_length_mm
    ∧ ((encode df)[i]?).map EncRow.body_mass_g
      = (df[i]?).map RawRow.body_mass_g
    ∧ (∀ r, r ∈ test_rows perm df → r ∈ encode df)
    ∧ (∀ r, r ∈ train_rows perm df → r ∈ encode df) := by
  refine ⟨?_, ?_, ?_, ?_, ?_, fun r hr => rows_at_subset hr,
    fun r hr => rows_at_subset hr⟩
  all_goals
    rw [encode_getElem? df i]
    cases df[i]? <;> simp [encodeRow]

end Exercise
